import Mathlib

/-!
Verification of the client-side session-state manager (the `AuthProvider`
context): data model, `login`, `logout`, `updateUser`, `validateSession`
and the bootstrap routine `initializeAuth`, embedded shallowly from the
JavaScript source.  Browser storage is modelled as two key-value tiers
(`localS` for `localStorage`, `sessionS` for `sessionStorage`), each with
the two keys the code uses (`user`, `isAuthenticated`).  Time is an
integer millisecond clock passed explicitly (`Date.now()` / ISO strings
round-trip through `new Date(...)`, so `loginTime` is kept as the
timestamp).  A stored `user` value is either a well-formed serialized
user object or malformed data on which `JSON.parse` throws.
-/

namespace SessionMgr

/-- The in-memory user object.  The source builds it with fields
`email`, `rememberMe`, `loginTime`, `id`; `updateUser` may add further
fields via spread (the spec's example uses `nickname`), so every field is
optional, modelling presence/absence of the key on the JS object. -/
structure UserObj where
  email : Option String
  rememberMe : Option Bool
  loginTime : Option Int
  id : Option String
  nickname : Option String
deriving DecidableEq, Repr

/-- A value stored under the `user` key of a tier: either the serialized
form of a user object (`JSON.stringify` output, which `JSON.parse`
recovers), or malformed data on which `JSON.parse` throws. -/
inductive StoredUser where
  | good (u : UserObj)
  | malformed
deriving DecidableEq, Repr

/-- One storage tier, restricted to the two keys the code touches.
`none` models the key being absent (`getItem` returning `null`). -/
structure Store where
  user : Option StoredUser
  isAuthenticated : Option String
deriving DecidableEq, Repr

def emptyStore : Store := { user := none, isAuthenticated := none }

/-- Full state of the provider: the three React state variables plus the
two storage tiers. -/
structure AuthState where
  user : Option UserObj
  isAuthenticated : Bool
  isLoading : Bool
  localS : Store
  sessionS : Store
deriving DecidableEq, Repr

/-- State at process start: `useState(null)`, `useState(false)`,
`useState(true)`, with whatever the tiers hold; with both tiers empty
this is a fresh browser profile. -/
def initialState : AuthState :=
  { user := none
    isAuthenticated := false
    isLoading := true
    localS := emptyStore
    sessionS := emptyStore }

/-- A character matched by the regex class `[^\s@]`: not whitespace and
not `@`. -/
def isLocalChar (c : Char) : Bool := !c.isWhitespace && !(c = '@')

/-- Matcher for the suffix regex `[^\s@]+` (one or more local chars). -/
def plusOk (cs : List Char) : Bool := !cs.isEmpty && cs.all isLocalChar

/-- Matcher for `[^\s@]*\.[^\s@]+` (what remains of the domain part after
at least one local character has been consumed): either the current
character is the literal dot and the rest matches `[^\s@]+`, or the
current character is local and we keep scanning.  Both branches can apply
when the character is a dot (a dot is itself a local character); the
disjunction reflects the regex's nondeterminism. -/
def domTail : List Char → Bool
  | [] => false
  | c :: rest => (c = '.' && plusOk rest) || (isLocalChar c && domTail rest)

/-- Matcher for `[^\s@]+\.[^\s@]+` (the part after the `@`). -/
def domOk : List Char → Bool
  | [] => false
  | c :: rest => isLocalChar c && domTail rest

/-- Matcher for `@[^\s@]+\.[^\s@]+$` preceded by `[^\s@]*`: either the
current character is the `@` and the rest is the domain part, or it is a
local character and we keep scanning. -/
def emailAfterFirst : List Char → Bool
  | [] => false
  | c :: rest => (c = '@' && domOk rest) || (isLocalChar c && emailAfterFirst rest)

/-- Matcher for the whole anchored pattern `^[^\s@]+@[^\s@]+\.[^\s@]+$`. -/
def emailChars : List Char → Bool
  | [] => false
  | c :: rest => isLocalChar c && emailAfterFirst rest

/-- `emailRegex.test email` from the source. -/
def emailOk (s : String) : Bool := emailChars s.data

/-- The pattern as the spec words it: one-or-more non-whitespace-non-`@`
characters, a literal `@`, one-or-more, a literal dot, one-or-more. -/
def emailPattern (s : String) : Prop :=
  ∃ a b c : List Char,
    s.data = a ++ '@' :: (b ++ '.' :: c) ∧
    a ≠ [] ∧ b ≠ [] ∧ c ≠ [] ∧
    (∀ ch ∈ a, isLocalChar ch = true) ∧
    (∀ ch ∈ b, isLocalChar ch = true) ∧
    (∀ ch ∈ c, isLocalChar ch = true)

/-- Field-wise override: the patch's value when the key is present on the
patch, the base's value otherwise — JS `{ ...base, ...patch }` for one
key. -/
def overrideF {α : Type} (patch base : Option α) : Option α :=
  match patch with
  | some v => some v
  | none => base

/-- `{ ...u, ...p }` on two user objects. -/
def mergeObj (u p : UserObj) : UserObj :=
  { email := overrideF p.email u.email
    rememberMe := overrideF p.rememberMe u.rememberMe
    loginTime := overrideF p.loginTime u.loginTime
    id := overrideF p.id u.id
    nickname := overrideF p.nickname u.nickname }

/-- The object with no fields, so that `{ ...null, ...p }` (spreading a
null `user`) yields exactly `p`'s fields. -/
def emptyUser : UserObj :=
  { email := none
    rememberMe := none
    loginTime := none
    id := none
    nickname := none }

/-- `{ ...user, ...userData }` where `user` may be null. -/
def mergeUser (u : Option UserObj) (p : UserObj) : UserObj :=
  mergeObj (u.getD emptyUser) p

/-- `login(email, password, rememberMe)` at instant `now` (milliseconds).
The two validation `throw`s are caught by the surrounding `try`/`catch`
and become the `false` return value, so the embedding is a total
function returning the boolean result and the next state. -/
def login (s : AuthState) (email password : String) (rememberMe : Bool)
    (now : Int) : Bool × AuthState :=
  if emailOk email = false then (false, s)
  else if password.length < 6 then (false, s)
  else
    let userData : UserObj :=
      { email := some email
        rememberMe := some rememberMe
        loginTime := some now
        id := some (toString now)
        nickname := none }
    let s1 := { s with user := some userData, isAuthenticated := true }
    if rememberMe then
      (true, { s1 with localS :=
        { user := some (StoredUser.good userData)
          isAuthenticated := some "true" } })
    else
      (true, { s1 with sessionS :=
        { user := some (StoredUser.good userData)
          isAuthenticated := some "true" } })

/-- `logout()`: clears the in-memory user and flag and removes both keys
from both tiers.  `isLoading` is untouched. -/
def logout (s : AuthState) : AuthState :=
  { s with
    user := none
    isAuthenticated := false
    localS := emptyStore
    sessionS := emptyStore }

/-- `updateUser(userData)`: shallow-merge into the current user, then
re-serialize to each tier whose `user` key is non-empty. -/
def updateUser (s : AuthState) (p : UserObj) : AuthState :=
  let updated := mergeUser s.user p
  let s1 := { s with user := some updated }
  let s2 :=
    if s1.localS.user.isSome then
      { s1 with localS := { s1.localS with user := some (StoredUser.good updated) } }
    else s1
  if s2.sessionS.user.isSome then
    { s2 with sessionS := { s2.sessionS with user := some (StoredUser.good updated) } }
  else s2

/-- `24 * 60 * 60 * 1000` milliseconds. -/
def maxSessionTime : Int := 24 * 60 * 60 * 1000

/-- `validateSession()` at instant `now`: when a user with a `loginTime`
exists and more than 24 hours have elapsed, log out and return `false`;
otherwise return `true` with the state unchanged. -/
def validateSession (s : AuthState) (now : Int) : Bool × AuthState :=
  match s.user with
  | some u =>
    match u.loginTime with
    | some t =>
      if now - t > maxSessionTime then (false, logout s)
      else (true, s)
    | none => (true, s)
  | none => (true, s)

/-- `JSON.parse` on a stored `user` value: recovers the object from the
serialized form, throws (`none`) on malformed data. -/
def parseStored : StoredUser → Option UserObj
  | StoredUser.good u => some u
  | StoredUser.malformed => none

/-- The bootstrap routine `initializeAuth`: read the durable tier only;
if a `user` value is present and the flag is exactly `"true"`, parse and
adopt it; a parse failure is caught, both durable keys are removed; in
every path `isLoading` ends `false`. -/
def initializeAuth (s : AuthState) : AuthState :=
  match s.localS.user with
  | some stored =>
    if s.localS.isAuthenticated = some "true" then
      match parseStored stored with
      | some u =>
        { s with user := some u, isAuthenticated := true, isLoading := false }
      | none =>
        { s with localS := emptyStore, isLoading := false }
    else { s with isLoading := false }
  | none => { s with isLoading := false }

/-- The in-memory half of the spec's state invariant: `user` is null
exactly when `isAuthenticated` is false. -/
def memInv (s : AuthState) : Prop := (s.user = none ↔ s.isAuthenticated = false)

theorem plusOk_iff (cs : List Char) :
    plusOk cs = true ↔ cs ≠ [] ∧ ∀ ch ∈ cs, isLocalChar ch = true := by
  cases cs <;> simp [plusOk, List.all_eq_true]

theorem domTail_iff (cs : List Char) :
    domTail cs = true ↔
      ∃ b c, cs = b ++ '.' :: c ∧ (∀ ch ∈ b, isLocalChar ch = true) ∧
        c ≠ [] ∧ (∀ ch ∈ c, isLocalChar ch = true) := by
  induction cs with
  | nil =>
    simp only [domTail, Bool.false_eq_true, false_iff]
    rintro ⟨b, c, h, -⟩
    cases b <;> simp at h
  | cons x rest ih =>
    simp only [domTail, Bool.or_eq_true, Bool.and_eq_true, decide_eq_true_eq,
      ih, plusOk_iff]
    constructor
    · rintro (⟨rfl, hne, hall⟩ | ⟨hx, b, c, rfl, hb, hc, hcall⟩)
      · exact ⟨[], rest, rfl, by simp, hne, hall⟩
      · refine ⟨x :: b, c, rfl, ?_, hc, hcall⟩
        intro ch hch
        rcases List.mem_cons.mp hch with rfl | hch
        · exact hx
        · exact hb ch hch
    · rintro ⟨b, c, heq, hb, hc, hcall⟩
      cases b with
      | nil =>
        simp only [List.nil_append, List.cons.injEq] at heq
        obtain ⟨rfl, rfl⟩ := heq
        exact Or.inl ⟨rfl, hc, hcall⟩
      | cons y b0 =>
        simp only [List.cons_append, List.cons.injEq] at heq
        obtain ⟨rfl, rfl⟩ := heq
        refine Or.inr ⟨hb x (List.mem_cons_self x b0), b0, c, rfl, ?_, hc, hcall⟩
        intro ch hch
        exact hb ch (List.mem_cons_of_mem x hch)

theorem domOk_iff (cs : List Char) :
    domOk cs = true ↔
      ∃ b c, cs = b ++ '.' :: c ∧ b ≠ [] ∧
        (∀ ch ∈ b, isLocalChar ch = true) ∧
        c ≠ [] ∧ (∀ ch ∈ c, isLocalChar ch = true) := by
  cases cs with
  | nil =>
    simp only [domOk, Bool.false_eq_true, false_iff]
    rintro ⟨b, c, h, -⟩
    cases b <;> simp at h
  | cons x rest =>
    simp only [domOk, Bool.and_eq_true, domTail_iff]
    constructor
    · rintro ⟨hx, b, c, rfl, hb, hc, hcall⟩
      refine ⟨x :: b, c, rfl, by simp, ?_, hc, hcall⟩
      intro ch hch
      rcases List.mem_cons.mp hch with rfl | hch
      · exact hx
      · exact hb ch hch
    · rintro ⟨b, c, heq, hbne, hb, hc, hcall⟩
      cases b with
      | nil => exact absurd rfl hbne
      | cons y b0 =>
        simp only [List.cons_append, List.cons.injEq] at heq
        obtain ⟨rfl, rfl⟩ := heq
        refine ⟨hb x (List.mem_cons_self x b0), b0, c, rfl, ?_, hc, hcall⟩
        intro ch hch
        exact hb ch (List.mem_cons_of_mem x hch)

theorem emailAfterFirst_iff (cs : List Char) :
    emailAfterFirst cs = true ↔
      ∃ a r, cs = a ++ '@' :: r ∧ (∀ ch ∈ a, isLocalChar ch = true) ∧
        domOk r = true := by
  induction cs with
  | nil =>
    simp only [emailAfterFirst, Bool.false_eq_true, false_iff]
    rintro ⟨a, r, h, -⟩
    cases a <;> simp at h
  | cons x rest ih =>
    simp only [emailAfterFirst, Bool.or_eq_true, Bool.and_eq_true,
      decide_eq_true_eq, ih]
    constructor
    · rintro (⟨rfl, hd⟩ | ⟨hx, a, r, rfl, ha, hd⟩)
      · exact ⟨[], rest, rfl, by simp, hd⟩
      · refine ⟨x :: a, r, rfl, ?_, hd⟩
        intro ch hch
        rcases List.mem_cons.mp hch with rfl | hch
        · exact hx
        · exact ha ch hch
    · rintro ⟨a, r, heq, ha, hd⟩
      cases a with
      | nil =>
        simp only [List.nil_append, List.cons.injEq] at heq
        obtain ⟨rfl, rfl⟩ := heq
        exact Or.inl ⟨rfl, hd⟩
      | cons y a0 =>
        simp only [List.cons_append, List.cons.injEq] at heq
        obtain ⟨rfl, rfl⟩ := heq
        refine Or.inr ⟨ha x (List.mem_cons_self x a0), a0, r, rfl, ?_, hd⟩
        intro ch hch
        exact ha ch (List.mem_cons_of_mem x hch)

theorem emailChars_iff (cs : List Char) :
    emailChars cs = true ↔
      ∃ a b c, cs = a ++ '@' :: (b ++ '.' :: c) ∧
        a ≠ [] ∧ b ≠ [] ∧ c ≠ [] ∧
        (∀ ch ∈ a, isLocalChar ch = true) ∧
        (∀ ch ∈ b, isLocalChar ch = true) ∧
        (∀ ch ∈ c, isLocalChar ch = true) := by
  cases cs with
  | nil =>
    simp only [emailChars, Bool.false_eq_true, false_iff]
    rintro ⟨a, b, c, h, -⟩
    cases a <;> simp at h
  | cons x rest =>
    simp only [emailChars, Bool.and_eq_true, emailAfterFirst_iff]
    constructor
    · rintro ⟨hx, a, r, rfl, ha, hd⟩
      rcases (domOk_iff r).mp hd with ⟨b, c, rfl, hbne, hb, hcne, hc⟩
      refine ⟨x :: a, b, c, rfl, by simp, hbne, hcne, ?_, hb, hc⟩
      intro ch hch
      rcases List.mem_cons.mp hch with rfl | hch
      · exact hx
      · exact ha ch hch
    · rintro ⟨a, b, c, heq, hane, hbne, hcne, ha, hb, hc⟩
      cases a with
      | nil => exact absurd rfl hane
      | cons y a0 =>
        simp only [List.cons_append, List.cons.injEq] at heq
        obtain ⟨rfl, rfl⟩ := heq
        refine ⟨ha x (List.mem_cons_self x a0), a0, b ++ '.' :: c, rfl, ?_, ?_⟩
        · intro ch hch
          exact ha ch (List.mem_cons_of_mem x hch)
        · exact (domOk_iff _).mpr ⟨b, c, rfl, hbne, hb, hcne, hc⟩

/-- The executable matcher embedded from the source regex agrees with the
pattern as the spec words it. -/
theorem emailOk_iff_pattern (s : String) : emailOk s = true ↔ emailPattern s := by
  simpa [emailOk, emailPattern] using emailChars_iff s.data

/-- A sample authenticated in-memory state whose session began at
instant `t`, used to instantiate theorems at concrete inputs. -/
def authedAt (t : Int) : AuthState :=
  { initialState with
    user := some { emptyUser with loginTime := some t }
    isAuthenticated := true }

/-- C4: `login(email, password, rememberMe)` returns `true` precisely
when the email matches the pattern (one-or-more non-whitespace-non-`@`
characters, `@`, one-or-more, a literal dot, one-or-more) and the
password has length at least 6; in particular any password shorter than
6 characters yields `false` whatever the email. -/
theorem claim_C4_login_true_iff (s : AuthState) (email password : String)
    (rememberMe : Bool) (now : Int) :
    (login s email password rememberMe now).1 = true ↔
      emailPattern email ∧ 6 ≤ password.length := by
  rw [← emailOk_iff_pattern]
  cases he : emailOk email with
  | false => simp [login, he]
  | true =>
    by_cases hp : password.length < 6
    · simp [login, he, hp]
    · cases rememberMe <;> simp [login, he, hp] <;> omega

/-- C3: on validation failure (email not matching the pattern, or
password shorter than 6 characters) `login` returns `false` and the
whole state — in-memory fields and both storage tiers — is unchanged;
the validation error is caught inside `login` (the embedding is a total
function), so nothing is thrown to the caller. -/
theorem claim_C3_login_validation_failure (s : AuthState)
    (email password : String) (rememberMe : Bool) (now : Int)
    (h : ¬ emailPattern email ∨ password.length < 6) :
    login s email password rememberMe now = (false, s) := by
  rcases h with h | h
  · have he : emailOk email = false := by
      cases hb : emailOk email with
      | false => rfl
      | true => exact absurd ((emailOk_iff_pattern email).mp hb) h
    simp [login, he]
  · by_cases he : emailOk email = false <;> simp [login, he, h]

theorem claim_C3_witness :
    ("abc".length < 6) ∧
      login initialState "a@b.co" "abc" true 0 = (false, initialState) :=
  ⟨by decide,
    claim_C3_login_validation_failure initialState "a@b.co" "abc" true 0
      (Or.inr (by decide))⟩

/-- C9: `logout` is idempotent on every state — a second call changes
nothing (so calling it when already logged out is safe), the in-memory
fields and both tiers ending exactly as after one call. -/
theorem claim_C9_logout_idempotent (s : AuthState) :
    logout (logout s) = logout s := rfl

/-- C7: after any successful `login` a `logout` leaves both tiers with
neither key present, the in-memory user null and `isAuthenticated`
false; and `logout` unconditionally purges both tiers from any state,
whichever tier held the Session. -/
theorem claim_C7_logout_clears :
    (∀ s email password rememberMe now,
      (login s email password rememberMe now).1 = true →
        (logout (login s email password rememberMe now).2).user = none ∧
        (logout (login s email password rememberMe now).2).isAuthenticated = false ∧
        (logout (login s email password rememberMe now).2).localS = emptyStore ∧
        (logout (login s email password rememberMe now).2).sessionS = emptyStore) ∧
    (∀ s, (logout s).localS = emptyStore ∧ (logout s).sessionS = emptyStore) :=
  ⟨fun _ _ _ _ _ _ => ⟨rfl, rfl, rfl, rfl⟩, fun _ => ⟨rfl, rfl⟩⟩

theorem claim_C7_witness :
    ((login initialState "a@b.co" "abcdef" true 0).1 = true) ∧
      (logout (login initialState "a@b.co" "abcdef" true 0).2).localS = emptyStore :=
  ⟨by decide,
    (claim_C7_logout_clears.1 initialState "a@b.co" "abcdef" true 0 (by decide)).2.2.1⟩

/-- C10: when both tiers hold a value under their `user` key,
`updateUser` writes the merged Session to both of them (each tier's
guard is checked independently, so neither write excludes the other). -/
theorem claim_C10_both_tiers_updated (s : AuthState) (q : UserObj)
    (hl : s.localS.user.isSome = true) (hs : s.sessionS.user.isSome = true) :
    (updateUser s q).localS.user = some (StoredUser.good (mergeUser s.user q)) ∧
    (updateUser s q).sessionS.user = some (StoredUser.good (mergeUser s.user q)) := by
  simp [updateUser, hl, hs]

/-- A state in which both tiers were seeded with a serialized user. -/
def seededBoth : AuthState :=
  { initialState with
    localS := { user := some (StoredUser.good emptyUser), isAuthenticated := some "true" }
    sessionS := { user := some (StoredUser.good emptyUser), isAuthenticated := some "true" } }

theorem claim_C10_witness :
    (updateUser seededBoth emptyUser).localS.user
        = some (StoredUser.good (mergeUser seededBoth.user emptyUser)) ∧
      (updateUser seededBoth emptyUser).sessionS.user
        = some (StoredUser.good (mergeUser seededBoth.user emptyUser)) :=
  claim_C10_both_tiers_updated seededBoth emptyUser rfl rfl

/-- C8: `updateUser(q)` while authenticated shallow-merges `q` into the
current Session — every field not named in `q` (its entry is `none`)
keeps its old value — and re-serializes the merged object to each tier
that currently holds a `user` value, leaving a tier that holds none
entirely unchanged. -/
theorem claim_C8_updateUser_frame (s : AuthState) (u q : UserObj)
    (_hauth : s.isAuthenticated = true) (hu : s.user = some u) :
    (updateUser s q).user = some (mergeObj u q) ∧
    ((q.email = none → (mergeObj u q).email = u.email) ∧
     (q.rememberMe = none → (mergeObj u q).rememberMe = u.rememberMe) ∧
     (q.loginTime = none → (mergeObj u q).loginTime = u.loginTime) ∧
     (q.id = none → (mergeObj u q).id = u.id) ∧
     (q.nickname = none → (mergeObj u q).nickname = u.nickname)) ∧
    ((s.localS.user.isSome = true →
        (updateUser s q).localS.user = some (StoredUser.good (mergeObj u q)) ∧
        (updateUser s q).localS.isAuthenticated = s.localS.isAuthenticated) ∧
     (s.localS.user = none → (updateUser s q).localS = s.localS) ∧
     (s.sessionS.user.isSome = true →
        (updateUser s q).sessionS.user = some (StoredUser.good (mergeObj u q)) ∧
        (updateUser s q).sessionS.isAuthenticated = s.sessionS.isAuthenticated) ∧
     (s.sessionS.user = none → (updateUser s q).sessionS = s.sessionS)) := by
  refine ⟨?_, ⟨?_, ?_, ?_, ?_, ?_⟩, ?_, ?_, ?_, ?_⟩
  · by_cases hl : s.localS.user.isSome <;>
      by_cases hs : s.sessionS.user.isSome <;>
        simp [updateUser, mergeUser, hu, hl, hs]
  · intro hq; simp [mergeObj, overrideF, hq]
  · intro hq; simp [mergeObj, overrideF, hq]
  · intro hq; simp [mergeObj, overrideF, hq]
  · intro hq; simp [mergeObj, overrideF, hq]
  · intro hq; simp [mergeObj, overrideF, hq]
  · intro hl
    by_cases hs : s.sessionS.user.isSome <;>
      simp [updateUser, mergeUser, hu, hl, hs]
  · intro hl
    by_cases hs : s.sessionS.user.isSome <;>
      simp [updateUser, mergeUser, hu, hl, hs]
  · intro hs
    by_cases hl : s.localS.user.isSome <;>
      simp [updateUser, mergeUser, hu, hl, hs]
  · intro hs
    by_cases hl : s.localS.user.isSome <;>
      simp [updateUser, mergeUser, hu, hl, hs]

/-- The state right after `login(\x22a@b.co\x22, \x22abcdef\x22, true)` at
instant 0, and its in-memory user object. -/
def sampleUser : UserObj :=
  { email := some "a@b.co"
    rememberMe := some true
    loginTime := some 0
    id := some "0"
    nickname := none }

def sampleRemembered : AuthState := (login initialState "a@b.co" "abcdef" true 0).2

theorem claim_C8_witness :
    (updateUser sampleRemembered { emptyUser with nickname := some "x" }).user
        = some (mergeObj sampleUser { emptyUser with nickname := some "x" }) ∧
      (updateUser sampleRemembered { emptyUser with nickname := some "x" }).localS.user
        = some (StoredUser.good (mergeObj sampleUser { emptyUser with nickname := some "x" })) :=
  ⟨(claim_C8_updateUser_frame sampleRemembered sampleUser
      { emptyUser with nickname := some "x" } (by decide) (by decide)).1,
   ((claim_C8_updateUser_frame sampleRemembered sampleUser
      { emptyUser with nickname := some "x" } (by decide) (by decide)).2.2.1
      (by decide)).1⟩

/-- C5: `validateSession` at instant `now` returns `false` and ends in
the logged-out (Anonymous) state when the Session's `loginTime` lies
more than 24 hours in the past; returns `true` with the state unchanged
when the elapsed time is within 24 hours; and returns `true` leaving the
state unchanged when no Session exists. -/
theorem claim_C5_validateSession :
    (∀ s now u t, s.user = some u → u.loginTime = some t →
        now - t > maxSessionTime →
        validateSession s now = (false, logout s)) ∧
    (∀ s now u t, s.user = some u → u.loginTime = some t →
        now - t ≤ maxSessionTime →
        validateSession s now = (true, s)) ∧
    (∀ s now, s.user = none → validateSession s now = (true, s)) := by
  refine ⟨?_, ?_, ?_⟩
  · intro s now u t hu ht hgt
    simp [validateSession, hu, ht, hgt]
  · intro s now u t hu ht hle
    simp [validateSession, hu, ht, not_lt.mpr hle]
  · intro s now hu
    simp [validateSession, hu]

theorem claim_C5_witness :
    validateSession (authedAt 0) (maxSessionTime + 1) = (false, logout (authedAt 0)) ∧
    validateSession (authedAt 0) maxSessionTime = (true, authedAt 0) ∧
    validateSession initialState 0 = (true, initialState) :=
  ⟨claim_C5_validateSession.1 (authedAt 0) (maxSessionTime + 1)
      { emptyUser with loginTime := some 0 } 0 rfl rfl (by decide),
   claim_C5_validateSession.2.1 (authedAt 0) maxSessionTime
      { emptyUser with loginTime := some 0 } 0 rfl rfl (by decide),
   claim_C5_validateSession.2.2 initialState 0 rfl⟩

/-- C6: when the durable tier holds a `user` value on which parsing
throws while its authenticated-flag is the literal `"true"`, bootstrap
removes both durable keys, leaves the in-memory state untouched (so an
unauthenticated state stays unauthenticated), swallows the parse error
(the embedding is total) and still ends with `isLoading = false`. -/
theorem claim_C6_bootstrap_malformed (s : AuthState)
    (hu : s.localS.user = some StoredUser.malformed)
    (ha : s.localS.isAuthenticated = some "true")
    (hanon : s.isAuthenticated = false) :
    initializeAuth s = { s with localS := emptyStore, isLoading := false } ∧
    (initializeAuth s).isAuthenticated = false := by
  have h : initializeAuth s = { s with localS := emptyStore, isLoading := false } := by
    simp [initializeAuth, hu, ha, parseStored]
  exact ⟨h, by rw [h]; exact hanon⟩

theorem claim_C6_witness :
    initializeAuth
        { initialState with
          localS := { user := some StoredUser.malformed, isAuthenticated := some "true" } }
      = { ({ initialState with
            localS := { user := some StoredUser.malformed, isAuthenticated := some "true" } } : AuthState) with
          localS := emptyStore
          isLoading := false } :=
  (claim_C6_bootstrap_malformed _ rfl rfl rfl).1

/-- C1 counterexample: `login` never clears the other tier, so the
exactly-one-tier invariant is violated in a reachable authenticated
state.  From the initial state, a successful remembered login followed
by a successful non-remembered login (no logout in between — nothing
forbids calling `login` while authenticated) leaves a serialized Session
in *both* tiers. -/
theorem claim_C1_counterexample :
    ((login initialState "a@b.co" "abcdef" true 0).1 = true) ∧
    ((login (login initialState "a@b.co" "abcdef" true 0).2
        "a@b.co" "abcdef" false 1).1 = true) ∧
    ((login (login initialState "a@b.co" "abcdef" true 0).2
        "a@b.co" "abcdef" false 1).2.isAuthenticated = true) ∧
    ((login (login initialState "a@b.co" "abcdef" true 0).2
        "a@b.co" "abcdef" false 1).2.localS.user.isSome = true) ∧
    ((login (login initialState "a@b.co" "abcdef" true 0).2
        "a@b.co" "abcdef" false 1).2.sessionS.user.isSome = true) := by
  decide

/-- C1 amended: a successful `login` serializes the Session under the
durable tier's keys when `rememberMe` is true and under the ephemeral
tier's keys otherwise, and leaves the other tier exactly as it was — it
does not clear it.  Exactly-one-tier therefore holds after login
precisely when the other tier held nothing beforehand. -/
theorem claim_C1_login_tier (s : AuthState) (email password : String)
    (rememberMe : Bool) (now : Int)
    (h : (login s email password rememberMe now).1 = true) :
    ((login s email password rememberMe now).2.isAuthenticated = true) ∧
    (rememberMe = true →
      (login s email password rememberMe now).2.localS.user.isSome = true ∧
      (login s email password rememberMe now).2.localS.isAuthenticated = some "true" ∧
      (login s email password rememberMe now).2.sessionS = s.sessionS) ∧
    (rememberMe = false →
      (login s email password rememberMe now).2.sessionS.user.isSome = true ∧
      (login s email password rememberMe now).2.sessionS.isAuthenticated = some "true" ∧
      (login s email password rememberMe now).2.localS = s.localS) := by
  by_cases he : emailOk email = false
  · simp [login, he] at h
  · by_cases hp : password.length < 6
    · simp [login, he, hp] at h
    · cases rememberMe <;> simp [login, he, hp]

theorem claim_C1_witness :
    ((login initialState "a@b.co" "abcdef" true 0).1 = true) ∧
      (login initialState "a@b.co" "abcdef" true 0).2.localS.user.isSome = true ∧
      (login initialState "a@b.co" "abcdef" true 0).2.sessionS = initialState.sessionS :=
  ⟨by decide,
   ((claim_C1_login_tier initialState "a@b.co" "abcdef" true 0 (by decide)).2.1 rfl).1,
   ((claim_C1_login_tier initialState "a@b.co" "abcdef" true 0 (by decide)).2.1 rfl).2.2⟩

/-- C2 counterexample: `updateUser` from the (reachable) initial
unauthenticated state spreads the patch over a null user, producing a
non-null user object while `isAuthenticated` stays false — the
user-null-iff-unauthenticated invariant is violated after that single
operation. -/
theorem claim_C2_counterexample :
    ((updateUser initialState { emptyUser with nickname := some "x" }).user ≠ none) ∧
    ((updateUser initialState { emptyUser with nickname := some "x" }).isAuthenticated
      = false) := by
  decide

/-- C2 amended: the invariant `user = null ↔ isAuthenticated = false` is
preserved by `login` (either outcome), re-established by `logout`
unconditionally, preserved by `validateSession` and by bootstrap, and
preserved by `updateUser` whenever it is invoked while authenticated;
only `updateUser` in an unauthenticated state breaks it (it always makes
`user` non-null and never touches `isAuthenticated`). -/
theorem claim_C2_invariant :
    (∀ s email password rememberMe now, memInv s →
        memInv (login s email password rememberMe now).2) ∧
    (∀ s, memInv (logout s)) ∧
    (∀ s now, memInv s → memInv (validateSession s now).2) ∧
    (∀ s, memInv s → memInv (initializeAuth s)) ∧
    (∀ s q, s.isAuthenticated = true → memInv (updateUser s q)) := by
  refine ⟨?_, ?_, ?_, ?_, ?_⟩
  · intro s email password rememberMe now hs
    by_cases he : emailOk email = false
    · simpa [login, he] using hs
    · by_cases hp : password.length < 6
      · simpa [login, he, hp] using hs
      · cases rememberMe <;> simp [login, he, hp, memInv]
  · intro s
    simp [logout, memInv]
  · intro s now hs
    rcases hu : s.user with _ | u
    · simpa [validateSession, hu] using hs
    · rcases ht : u.loginTime with _ | t
      · simpa [validateSession, hu, ht] using hs
      · by_cases hgt : now - t > maxSessionTime
        · simp [validateSession, hu, ht, hgt, logout, memInv]
        · simpa [validateSession, hu, ht, hgt] using hs
  · intro s hs
    rcases hu : s.localS.user with _ | stored
    · simpa [initializeAuth, hu] using hs
    · by_cases ha : s.localS.isAuthenticated = some "true"
      · cases stored with
        | good u => simp [initializeAuth, hu, ha, parseStored, memInv]
        | malformed => simpa [initializeAuth, hu, ha, parseStored, memInv] using hs
      · simpa [initializeAuth, hu, ha] using hs
  · intro s q hauth
    by_cases hl : s.localS.user.isSome <;>
      by_cases hss : s.sessionS.user.isSome <;>
        simp [updateUser, hauth, memInv, hl, hss]

theorem claim_C2_witness :
    memInv (login initialState "a@b.co" "abcdef" false 5).2 ∧
    memInv (logout initialState) ∧
    memInv (validateSession (authedAt 0) (maxSessionTime + 1)).2 ∧
    memInv (initializeAuth initialState) ∧
    memInv (updateUser (authedAt 0) emptyUser) :=
  ⟨claim_C2_invariant.1 initialState "a@b.co" "abcdef" false 5
      (by simp [memInv, initialState]),
   claim_C2_invariant.2.1 initialState,
   claim_C2_invariant.2.2.1 (authedAt 0) (maxSessionTime + 1)
      (by simp [memInv, authedAt, initialState]),
   claim_C2_invariant.2.2.2.1 initialState (by simp [memInv, initialState]),
   claim_C2_invariant.2.2.2.2 (authedAt 0) emptyUser rfl⟩

end SessionMgr
